import Mathlib

/-!
# Verification of the NIkoo KYC service against its specification

Shallow embedding of the request-signing client (`services/sumsub_service.py`),
the verification orchestrator (`services/verification_service.py`) and the
webhook endpoint (`routers/webhook.py`), together with executable models of the
library routines they call (SHA-256, HMAC, base64).

Byte sequences are `List Nat`; Python's `str.encode('utf-8')` is modelled as
the list of character code points (exact on the ASCII data these claims use).
Machine words are `Nat` with explicit reductions modulo `2 ^ 32` or `256`.
Every provider round trip is modelled by passing the provider's response as an
explicit argument, and every database mutation by explicit state passing over
a `Store` value, so each handler is a pure function of its inputs.
-/

namespace NikooKyc

/-- Byte sequences, as in Python `bytes`: a list of values intended `< 256`. -/
abbrev Bytes := List Nat

/-- Model of `s.encode('utf-8')`: the code points of the characters of `s`
(byte-exact for the ASCII strings appearing in the signing protocol). -/
def strBytes (s : String) : Bytes := s.data.map Char.toNat

/-! ## SHA-256 (models Python `hashlib.sha256`), FIPS 180-4 -/

/-- `2 ^ 32`, the word modulus of SHA-256 arithmetic. -/
def M32 : Nat := 4294967296

/-- Right rotation of a 32-bit word (exact for inputs `< 2 ^ 32`). -/
def rotr32 (k x : Nat) : Nat := x / 2 ^ k + x % 2 ^ k * 2 ^ (32 - k)

/-- `Ch(x,y,z)` of FIPS 180-4. Complement is taken against the 32-bit mask. -/
def ch256 (x y z : Nat) : Nat := Nat.xor (Nat.land x y) (Nat.land (Nat.xor x 4294967295) z)

/-- `Maj(x,y,z)` of FIPS 180-4. -/
def maj256 (x y z : Nat) : Nat := Nat.xor (Nat.xor (Nat.land x y) (Nat.land x z)) (Nat.land y z)

/-- `Σ₀`. -/
def bsig0 (x : Nat) : Nat := Nat.xor (Nat.xor (rotr32 2 x) (rotr32 13 x)) (rotr32 22 x)

/-- `Σ₁`. -/
def bsig1 (x : Nat) : Nat := Nat.xor (Nat.xor (rotr32 6 x) (rotr32 11 x)) (rotr32 25 x)

/-- `σ₀`. -/
def ssig0 (x : Nat) : Nat := Nat.xor (Nat.xor (rotr32 7 x) (rotr32 18 x)) (x / 2 ^ 3)

/-- `σ₁`. -/
def ssig1 (x : Nat) : Nat := Nat.xor (Nat.xor (rotr32 17 x) (rotr32 19 x)) (x / 2 ^ 10)

/-- The 64 SHA-256 round constants. -/
def sha256K : List Nat :=
  [1116352408, 1899447441, 3049323471, 3921009573, 961987163, 1508970993, 2453635748, 2870763221,
   3624381080, 310598401, 607225278, 1426881987, 1925078388, 2162078206, 2614888103, 3248222580,
   3835390401, 4022224774, 264347078, 604807628, 770255983, 1249150122, 1555081692, 1996064986,
   2554220882, 2821834349, 2952996808, 3210313671, 3336571891, 3584528711, 113926993, 338241895,
   666307205, 773529912, 1294757372, 1396182291, 1695183700, 1986661051, 2177026350, 2456956037,
   2730485921, 2820302411, 3259730800, 3345764771, 3516065817, 3600352804, 4094571909, 275423344,
   430227734, 506948616, 659060556, 883997877, 958139571, 1322822218, 1537002063, 1747873779,
   1955562222, 2024104815, 2227730452, 2361852424, 2428436474, 2756734187, 3204031479, 3329325298]

/-- The eight-word SHA-256 working state. -/
structure Hash8 where
  a : Nat
  b : Nat
  c : Nat
  d : Nat
  e : Nat
  f : Nat
  g : Nat
  h : Nat
deriving DecidableEq

/-- The SHA-256 initial hash value. -/
def sha256H0 : Hash8 :=
  ⟨1779033703, 3144134277, 1013904242, 2773480762, 1359893119, 2600822924, 528734635, 1541459225⟩

/-- Big-endian 8-byte encoding of the 64-bit message bit length. -/
def lenBytes64 (n : Nat) : Bytes :=
  [n / 2 ^ 56 % 256, n / 2 ^ 48 % 256, n / 2 ^ 40 % 256, n / 2 ^ 32 % 256,
   n / 2 ^ 24 % 256, n / 2 ^ 16 % 256, n / 2 ^ 8 % 256, n % 256]

/-- FIPS 180-4 §5.1.1 padding: `128`, zeros to 56 mod 64, then the bit length. -/
def padMessage (ms : Bytes) : Bytes :=
  ms ++ 128 :: List.replicate ((119 - ms.length % 64) % 64) 0 ++ lenBytes64 (8 * ms.length)

/-- Big-endian assembly of 4-byte groups into 32-bit words. -/
def bytesToWords : Bytes → List Nat
  | b0 :: b1 :: b2 :: b3 :: rest =>
      (((b0 * 256 + b1) * 256 + b2) * 256 + b3) % M32 :: bytesToWords rest
  | _ => []

/-- One extension step of the message schedule, appending word `t` from words
`t-2`, `t-7`, `t-15`, `t-16`. -/
def scheduleStep (ws : List Nat) : List Nat :=
  ws ++ [(ssig1 (ws.getD (ws.length - 2) 0) + ws.getD (ws.length - 7) 0 +
          ssig0 (ws.getD (ws.length - 15) 0) + ws.getD (ws.length - 16) 0) % M32]

/-- Iterate the schedule extension. -/
def extendSchedule : Nat → List Nat → List Nat
  | 0, ws => ws
  | n + 1, ws => extendSchedule n (scheduleStep ws)

/-- One compression round; `kw` is `(K t + W t) % 2 ^ 32`. -/
def sha256Round (st : Hash8) (kw : Nat) : Hash8 :=
  let t1 := (st.h + bsig1 st.e + ch256 st.e st.f st.g + kw) % M32
  let t2 := (bsig0 st.a + maj256 st.a st.b st.c) % M32
  ⟨(t1 + t2) % M32, st.a, st.b, st.c, (st.d + t1) % M32, st.e, st.f, st.g⟩

/-- Compress one 16-word block into the running state. -/
def compressBlock (st : Hash8) (block : List Nat) : Hash8 :=
  let ws := extendSchedule 48 block
  let fin := (List.zipWith (fun k w => (k + w) % M32) sha256K ws).foldl sha256Round st
  ⟨(st.a + fin.a) % M32, (st.b + fin.b) % M32, (st.c + fin.c) % M32, (st.d + fin.d) % M32,
   (st.e + fin.e) % M32, (st.f + fin.f) % M32, (st.g + fin.g) % M32, (st.h + fin.h) % M32⟩

/-- Fold the compression function over the 16-word blocks of the padded message. -/
def sha256Blocks (st : Hash8) : List Nat → Hash8
  | w0 :: w1 :: w2 :: w3 :: w4 :: w5 :: w6 :: w7 ::
    w8 :: w9 :: w10 :: w11 :: w12 :: w13 :: w14 :: w15 :: rest =>
      sha256Blocks
        (compressBlock st [w0, w1, w2, w3, w4, w5, w6, w7, w8, w9, w10, w11, w12, w13, w14, w15])
        rest
  | _ => st

/-- Big-endian 4-byte serialization of one word. -/
def word4 (w : Nat) : Bytes := [w / 2 ^ 24 % 256, w / 2 ^ 16 % 256, w / 2 ^ 8 % 256, w % 256]

/-- Serialize the eight-word state to the 32 digest bytes. -/
def hash8Bytes (st : Hash8) : Bytes :=
  word4 st.a ++ word4 st.b ++ word4 st.c ++ word4 st.d ++
  word4 st.e ++ word4 st.f ++ word4 st.g ++ word4 st.h

/-- SHA-256 of a byte sequence (models `hashlib.sha256(ms).digest()`). -/
def sha256 (ms : Bytes) : Bytes :=
  hash8Bytes (sha256Blocks sha256H0 (bytesToWords (padMessage ms)))

/-! ## HMAC-SHA256 (models Python `hmac.new(key, msg, hashlib.sha256)`) -/

/-- FIPS 198-1 key preparation for the 64-byte SHA-256 block size. -/
def hmacKeyBlock (key : Bytes) : Bytes :=
  let k0 := if 64 < key.length then sha256 key else key
  k0 ++ List.replicate (64 - k0.length) 0

/-- HMAC-SHA256: `H((K ⊕ opad) ‖ H((K ⊕ ipad) ‖ msg))`. -/
def hmacSha256 (key msg : Bytes) : Bytes :=
  let kb := hmacKeyBlock key
  sha256 (kb.map (Nat.xor 92) ++ sha256 (kb.map (Nat.xor 54) ++ msg))

/-- Lowercase hex digit for a value `< 16`. -/
def hexChar (n : Nat) : Char := if n < 10 then Char.ofNat (48 + n) else Char.ofNat (87 + n)

/-- Two lowercase hex digits of one byte. -/
def hexByte (b : Nat) : List Char := [hexChar (b / 16 % 16), hexChar (b % 16)]

/-- Lowercase hex string of a byte sequence (models `.hexdigest()`). -/
def hexDigest (bs : Bytes) : String := ⟨(bs.map hexByte).flatten⟩

/-! ## Base64 (models Python `base64.b64encode` / `base64.b64decode`) -/

/-- The standard base64 alphabet, for sextet values `< 64`. -/
def b64Char (n : Nat) : Char :=
  if n < 26 then Char.ofNat (65 + n)
  else if n < 52 then Char.ofNat (97 + (n - 26))
  else if n < 62 then Char.ofNat (48 + (n - 52))
  else if n = 62 then '+' else '/'

/-- Inverse of the base64 alphabet; `none` off the alphabet. -/
def b64Val (c : Char) : Option Nat :=
  if 'A' ≤ c ∧ c ≤ 'Z' then some (c.toNat - 65)
  else if 'a' ≤ c ∧ c ≤ 'z' then some (c.toNat - 71)
  else if '0' ≤ c ∧ c ≤ '9' then some (c.toNat + 4)
  else if c = '+' then some 62
  else if c = '/' then some 63
  else none

/-- Standard base64 encoding with `'='` padding, three input bytes per four
output characters. -/
def b64encode : Bytes → List Char
  | [] => []
  | [a] => [b64Char (a / 4), b64Char (a % 4 * 16), '=', '=']
  | [a, b] => [b64Char (a / 4), b64Char (a % 4 * 16 + b / 16), b64Char (b % 16 * 4), '=']
  | a :: b :: c :: rest =>
      b64Char (a / 4) :: b64Char (a % 4 * 16 + b / 16) ::
      b64Char (b % 16 * 4 + c / 64) :: b64Char (c % 64) :: b64encode rest

/-- Characters `base64.b64decode` keeps: the alphabet and the pad. Anything
else is discarded before decoding (the `validate=False` default). -/
def b64Keep (c : Char) : Bool := (b64Val c).isSome || c = '='

/-- Decode the filtered character stream four characters at a time. Padding is
accepted only on the final group; residual low bits of the last sextet are
ignored, as in CPython's decoder. -/
def b64Quads : List Char → Option Bytes
  | [] => some []
  | c1 :: c2 :: c3 :: c4 :: rest =>
    match b64Val c1, b64Val c2 with
    | some v1, some v2 =>
      if c4 = '=' then
        if rest ≠ [] then none
        else if c3 = '=' then some [v1 * 4 + v2 / 16]
        else
          match b64Val c3 with
          | some v3 => some [v1 * 4 + v2 / 16, v2 % 16 * 16 + v3 / 4]
          | none => none
      else
        match b64Val c3, b64Val c4 with
        | some v3, some v4 =>
          match b64Quads rest with
          | some bs =>
              some ((v1 * 4 + v2 / 16) :: (v2 % 16 * 16 + v3 / 4) :: (v3 % 4 * 64 + v4) :: bs)
          | none => none
        | _, _ => none
    | _, _ => none
  | _ => none

/-- Models `base64.b64decode(s)`: discard foreign characters, then decode;
`none` models the `binascii.Error` the service catches. Mid-stream padding,
which some CPython versions tolerate, is modelled as failure. -/
def b64decode (s : List Char) : Option Bytes := b64Quads (s.filter b64Keep)

/-- The re-padding step of the ingestion routines
(`verification_service.py`): append `'='` until the length is a multiple
of four. -/
def repad (s : List Char) : List Char :=
  if s.length % 4 = 0 then s else s ++ List.replicate (4 - s.length % 4) '='

/-- Strip the trailing `'='` padding from an encoding, as the spec's
round-trip property describes source systems doing. -/
def stripPad (s : List Char) : List Char := (s.reverse.dropWhile (fun c => c = '=')).reverse

/-! ## String helpers shared by the services -/

/-- `leadMatch n h` holds when `n` is an initial segment of `h`. -/
def leadMatch : List Char → List Char → Bool
  | [], _ => true
  | _ :: _, [] => false
  | a :: as, b :: bs => a == b && leadMatch as bs

/-- Substring occurrence on character lists. -/
def charsContains (needle : List Char) : List Char → Bool
  | [] => needle.isEmpty
  | c :: rest => leadMatch needle (c :: rest) || charsContains needle rest

/-- Models Python's `needle in hay` on strings. -/
def strContains (hay needle : String) : Bool := charsContains needle.data hay.data

/-- Models `s.lower()` (kernel-reducible form of `String.toLower`). -/
def strLower (s : String) : String := ⟨s.data.map Char.toLower⟩

/-- Models `s.startswith(pre)` (kernel-reducible form of `String.startsWith`). -/
def strLead (s pre : String) : Bool := leadMatch pre.data s.data

/-- Header / JSON-object lookup: `d.get(k, dflt)` on an association list. -/
def headerGet (hs : List (String × String)) (k dflt : String) : String :=
  match hs.lookup k with
  | some v => v
  | none => dflt

/-! ## The signing client (`SumsubService._sign_request`) -/

/-- The configuration the signing client reads (`config.settings`), after
`_decode_secret_key` has normalised the secret. -/
structure SumsubService where
  secret_key : String
  app_token : String
  level_name : String
deriving DecidableEq

abbrev Headers := List (String × String)

/-- The byte string `_sign_request` feeds to HMAC: decimal timestamp,
upper-cased method, path with query, then the exact body bytes. -/
def dataToSign (now : Nat) (method path_url : String) (body : Bytes) : Bytes :=
  strBytes (toString now) ++ strBytes method.toUpper ++ strBytes path_url ++ body

/-- `_sign_request(method, path_url, body, is_multipart)` at timestamp `now`:
the HMAC-SHA256 hex signature and the outgoing header set. `Content-Type`
is added only for non-multipart requests. -/
def signRequest (svc : SumsubService) (method path_url : String) (body : Bytes)
    (is_multipart : Bool) (now : Nat) : Headers :=
  let signature :=
    hexDigest (hmacSha256 (strBytes svc.secret_key) (dataToSign now method path_url body))
  let hs := [("X-App-Token", svc.app_token), ("X-App-Access-Ts", toString now),
             ("X-App-Access-Sig", signature), ("Accept", "application/json"),
             ("X-Return-Doc-Warnings", "true")]
  if is_multipart then hs else hs ++ [("Content-Type", "application/json")]

/-! ## Provider responses and session store -/

/-- One provider HTTP response, passed to each operation as an explicit
argument: its status code, its JSON body as a flat association list (the
fields the service reads are all strings), its raw text, and its headers. -/
structure ProviderResponse where
  status_code : Nat
  json : List (String × String) := []
  text : String := ""
  headers : Headers := []
deriving DecidableEq

/-- A webhook callback payload, the fields `sumsub_webhook` reads after
`json.loads`. -/
structure WebhookPayload where
  externalUserId : String
  applicantId : String
  reviewStatus : String
deriving DecidableEq

/-- One document of the `liveness_sessions` collection. -/
structure LivenessSession where
  session_id : String
  user_id : String
  external_user_id : String
  status : String
  selfie_added : Bool := false
  is_live : Option Bool := none
  confidence : Option ℚ := none
  review_status : Option String := none
  webhook_data : Option WebhookPayload := none
deriving DecidableEq

/-- One document of the `kyc_sessions` collection. -/
structure KycSession where
  kyc_session_id : String
  user_id : String
  external_user_id : String
  status : String
  steps_completed : List String := []
  document_front_added : Bool := false
  document_back_added : Bool := false
  selfie_added : Bool := false
  document_type : Option String := none
  country : Option String := none
  matches_document : Option Bool := none
  face_match_score : Option ℚ := none
  verified : Bool := false
  review_status : Option String := none
  webhook_data : Option WebhookPayload := none
deriving DecidableEq

/-- One document of the `users` status-cache collection. -/
structure UserRecord where
  user_id : String
  verified : Bool := false
  kyc_completed : Bool := false
  kyc_session_id : Option String := none
  kyc_review_status : Option String := none
  liveness_completed : Bool := false
  liveness_session_id : Option String := none
  liveness_verified : Bool := false
  liveness_review_status : Option String := none
deriving DecidableEq

/-- The three MongoDB collections the orchestrator touches. -/
structure Store where
  liveness_sessions : List LivenessSession := []
  kyc_sessions : List KycSession := []
  users : List UserRecord := []
deriving DecidableEq

/-- `update_one`: apply `f` to the first element matching `p`, as Mongo's
single-document update does. -/
def updateFirst (p : α → Bool) (f : α → α) : List α → List α
  | [] => []
  | x :: xs => if p x then f x :: xs else x :: updateFirst p f xs

/-- `update_one(..., upsert=True)` on the users collection: update the first
record with this `user_id`, or create one and apply the update to it. -/
def upsertUser (uid : String) (f : UserRecord → UserRecord) (us : List UserRecord) :
    List UserRecord :=
  if us.any (fun u => u.user_id == uid) then updateFirst (fun u => u.user_id == uid) f us
  else us ++ [f { user_id := uid }]

/-! ## `SumsubService` operations (responses classified, transport modelled
by the explicit `ProviderResponse` argument) -/

/-- Result of the applicant-creation operations. -/
structure StartResult where
  success : Bool
  session_id : String := ""
  external_user_id : String := ""
  status : String := ""
  error : String := ""
deriving DecidableEq

/-- The provider-facing reference of a liveness session:
`f"liveness_{user_id}_{int(time.time())}"`. -/
def externalLivenessId (user_id : String) (t : Nat) : String :=
  "liveness_" ++ user_id ++ "_" ++ toString t

/-- The provider-facing reference of a KYC session:
`f"kyc_{user_id}_{int(time.time())}"`. -/
def externalKycId (user_id : String) (t : Nat) : String :=
  "kyc_" ++ user_id ++ "_" ++ toString t

/-- `start_liveness_session`: success only on 201 whose body has an `id`; a
201 body without `id` raises `KeyError`, caught by the generic handler; any
other status yields the error carrying the raw status and body. -/
def startLivenessSession (user_id : String) (t : Nat) (resp : ProviderResponse) : StartResult :=
  if resp.status_code = 201 then
    match resp.json.lookup "id" with
    | some i =>
        { success := true, session_id := i, external_user_id := externalLivenessId user_id t,
          status := "initiated" }
    | none => { success := false, error := "Unexpected Error in start_liveness_session: 'id'" }
  else
    { success := false,
      error := "Sumsub API Error: Status " ++ toString resp.status_code ++ " - " ++ resp.text }

/-- `create_kyc_applicant`: success only on 201 with an `id`; a 201 body
without `id` is reported explicitly; any other status returns the raw body
text alone as the error. -/
def createKycApplicant (user_id : String) (t : Nat) (resp : ProviderResponse) : StartResult :=
  if resp.status_code = 201 then
    match resp.json.lookup "id" with
    | some i =>
        { success := true, session_id := i, external_user_id := externalKycId user_id t,
          status := "initiated" }
    | none => { success := false, error := "Sumsub response missing applicant ID" }
  else { success := false, error := resp.text }

/-- Result of the multipart upload operations. -/
structure UploadResult where
  success : Bool
  image_id : String := ""
  document_detected : Bool := false
  document_type : Option String := none
  is_live : Option Bool := none
  matches_document : Option Bool := none
  face_match_score : Option ℚ := none
  selfie_quality : Option String := none
  confidence : Option ℚ := none
  message : String := ""
  error : String := ""
  status_code : Option Nat := none
deriving DecidableEq

/-- The error string the upload operations build from a non-2xx response:
base message plus the structured `description` / `errorCode` when present,
else the raw text. -/
def sumsubApiError (resp : ProviderResponse) : String :=
  let base := "Sumsub API Error: Status " ++ toString resp.status_code
  match resp.json.lookup "description", resp.json.lookup "errorCode" with
  | some d, some c => base ++ " - " ++ d ++ " (Code: " ++ c ++ ")"
  | some d, none => base ++ " - " ++ d
  | none, some c => base ++ " (Code: " ++ c ++ ")"
  | none, none => base ++ " - " ++ resp.text

/-- The uploaded-image identifier: the `X-Image-Id` response header, falling
back to the JSON `id` when the header is empty and the response is JSON. -/
def imageIdOf (resp : ProviderResponse) : String :=
  let hdr := headerGet resp.headers "X-Image-Id" ""
  if hdr = "" ∧ strLead (headerGet resp.headers "Content-Type" "") "application/json" then
    headerGet resp.json "id" ""
  else hdr

/-- `add_liveness_selfie` response classification: on 200/201 the verdict
fields are the fixed constants `is_live = True`, `confidence = 0.95`. -/
def addLivenessSelfie (resp : ProviderResponse) : UploadResult :=
  if resp.status_code = 200 ∨ resp.status_code = 201 then
    { success := true, image_id := imageIdOf resp, is_live := some true,
      confidence := some (95 / 100),
      message := "Liveness selfie submitted. Advanced liveness check in progress..." }
  else
    { success := false, error := sumsubApiError resp, is_live := some false,
      status_code := some resp.status_code }

/-- `scan_document_front` response classification. -/
def sumsubScanDocumentFront (doc_type : String) (resp : ProviderResponse) : UploadResult :=
  if resp.status_code = 200 ∨ resp.status_code = 201 then
    { success := true, image_id := headerGet resp.headers "X-Image-Id" "",
      document_detected := true, document_type := some doc_type, confidence := some (92 / 100) }
  else
    { success := false, error := sumsubApiError resp, document_detected := false,
      status_code := some resp.status_code }

/-- `scan_document_back` response classification. -/
def sumsubScanDocumentBack (resp : ProviderResponse) : UploadResult :=
  if resp.status_code = 200 ∨ resp.status_code = 201 then
    { success := true, image_id := headerGet resp.headers "X-Image-Id" "",
      document_detected := true, confidence := some (90 / 100) }
  else
    { success := false, error := sumsubApiError resp, document_detected := false,
      status_code := some resp.status_code }

/-- `verify_kyc_selfie` response classification: on 200/201 the verdict
fields are the fixed constants `matches_document = True`,
`face_match_score = 0.94`. -/
def sumsubVerifyKycSelfie (resp : ProviderResponse) : UploadResult :=
  if resp.status_code = 200 ∨ resp.status_code = 201 then
    { success := true,
      image_id :=
        (if headerGet resp.headers "X-Image-Id" "" = "" then headerGet resp.json "id" ""
         else headerGet resp.headers "X-Image-Id" ""),
      matches_document := some true, face_match_score := some (94 / 100),
      selfie_quality := some "good", confidence := some (93 / 100) }
  else
    { success := false, error := sumsubApiError resp, matches_document := some false,
      status_code := some resp.status_code }

/-- Result of `check_kyc_status`. -/
structure KycStatusResult where
  success : Bool
  status : String := ""
  validating_documents : Bool := false
  verifying_identity : Bool := false
  running_security_checks : Bool := false
  progress : Nat := 0
  error : String := ""
deriving DecidableEq

/-- `check_kyc_status`: on 200 it reads the `verificationStatus` field of the
body (defaulting to `"pending"` when absent) and buckets progress as
75 for `"processing"`, 100 for `"approved"`, 50 otherwise. -/
def checkKycStatus (resp : ProviderResponse) : KycStatusResult :=
  if resp.status_code = 200 then
    let status := headerGet resp.json "verificationStatus" "pending"
    { success := true, status := status,
      validating_documents := status == "pending",
      verifying_identity := status == "processing",
      running_security_checks := status == "processing",
      progress := if status = "processing" then 75 else if status = "approved" then 100 else 50 }
  else { success := false, error := resp.text }

/-- Result of `complete_kyc_verification` (provider side). -/
structure CompleteKycResult where
  success : Bool
  message : String := ""
  status : String := ""
  verification_status : String := ""
  kyc_id : String := ""
  error : String := ""
deriving DecidableEq

/-- `complete_kyc_verification` (SumsubService): a GET of the applicant; any
200 yields the fixed approved verdict without reading `reviewStatus`. -/
def sumsubCompleteKyc (applicant_id : String) (resp : ProviderResponse) : CompleteKycResult :=
  if resp.status_code = 200 then
    { success := true, message := "KYC Approved", status := "approved",
      verification_status := "Verified", kyc_id := headerGet resp.json "id" applicant_id }
  else { success := false, error := resp.text }

/-! ## `VerificationService`: the orchestrator, with explicit state passing -/

/-- An uploaded image as it reaches a step handler: a base64 string, raw
bytes, or any other payload type. -/
inductive ImagePayload where
  | str (s : List Char)
  | bytes (b : Bytes)
  | other
deriving DecidableEq

/-- The image-ingestion normalisation of `scan_document_front` /
`scan_document_back`: re-pad and base64-decode strings, pass bytes through,
reject anything else; decode failure is the client input error. -/
def normalizeImage : ImagePayload → Except String Bytes
  | .str s =>
      match b64decode (repad s) with
      | some b => .ok b
      | none => .error "Invalid image data: decode failure"
  | .bytes b => .ok b
  | .other => .error "Invalid image payload"

/-- A provider round trip a step handler performs, recorded so that theorems
can state that an error path performs none. -/
inductive ProviderCall where
  | createApplicant (external_user_id : String)
  | uploadSelfie (applicant_id : String) (image : Bytes)
  | uploadDocFront (applicant_id : String) (image : Bytes) (doc_type country : String)
  | uploadDocBack (applicant_id : String) (image : Bytes) (doc_type country : String)
  | fetchStatus (applicant_id : String)
deriving DecidableEq

/-- `start_liveness_detection`: create the remote applicant; only on success
insert the session document, keyed by the provider's applicant id, with
status `"initiated"`. -/
def startLivenessDetection (st : Store) (user_id : String) (t : Nat)
    (resp : ProviderResponse) : StartResult × Store :=
  let r := startLivenessSession user_id t resp
  if r.success then
    (r, { st with liveness_sessions := st.liveness_sessions ++
            [{ session_id := r.session_id, user_id := user_id,
               external_user_id := r.external_user_id, status := "initiated" }] })
  else (r, st)

/-- `start_kyc_verification`: as for liveness, with an empty
`steps_completed` list on the fresh document. -/
def startKycVerification (st : Store) (user_id : String) (t : Nat)
    (resp : ProviderResponse) : StartResult × Store :=
  let r := createKycApplicant user_id t resp
  if r.success then
    (r, { st with kyc_sessions := st.kyc_sessions ++
            [{ kyc_session_id := r.session_id, user_id := user_id,
               external_user_id := r.external_user_id, status := "initiated",
               steps_completed := [] }] })
  else (r, st)

/-- `process_liveness_selfie`: look the session up, re-pad and decode the
base64 input, upload, and on success record the verdict fields. -/
def processLivenessSelfie (st : Store) (session_id : String) (image_base64 : List Char)
    (resp : ProviderResponse) : UploadResult × Store × List ProviderCall :=
  match st.liveness_sessions.find? (fun s => s.session_id == session_id) with
  | none => ({ success := false, error := "Session not found" }, st, [])
  | some _ =>
    match b64decode (repad image_base64) with
    | none => ({ success := false, error := "Invalid base64 image: decode failure" }, st, [])
    | some image_bytes =>
      let r := addLivenessSelfie resp
      let calls := [ProviderCall.uploadSelfie session_id image_bytes]
      let sessions' :=
        updateFirst (fun s => s.session_id == session_id)
          (fun s =>
            { s with
              selfie_added := true
              is_live := r.is_live
              confidence := r.confidence }) st.liveness_sessions
      if r.success then (r, { st with liveness_sessions := sessions' }, calls)
      else (r, st, calls)

/-- `scan_document_front`: session lookup, payload normalisation, upload, and
on success the partial update appending `"document_front"`. -/
def scanDocumentFront (st : Store) (kyc_session_id : String) (image : ImagePayload)
    (doc_type country : String) (resp : ProviderResponse) :
    UploadResult × Store × List ProviderCall :=
  match st.kyc_sessions.find? (fun s => s.kyc_session_id == kyc_session_id) with
  | none => ({ success := false, error := "KYC session not found" }, st, [])
  | some _ =>
    match normalizeImage image with
    | .error e => ({ success := false, error := e }, st, [])
    | .ok image_bytes =>
      let r := sumsubScanDocumentFront doc_type resp
      let calls := [ProviderCall.uploadDocFront kyc_session_id image_bytes doc_type country]
      let sessions' :=
        updateFirst (fun s => s.kyc_session_id == kyc_session_id)
          (fun s =>
            { s with
              document_front_added := true
              document_type := some doc_type
              country := some country
              steps_completed := s.steps_completed ++ ["document_front"] })
          st.kyc_sessions
      if r.success then (r, { st with kyc_sessions := sessions' }, calls)
      else (r, st, calls)

/-- `scan_document_back`: as the front side, appending `"document_back"`. -/
def scanDocumentBack (st : Store) (kyc_session_id : String) (image : ImagePayload)
    (doc_type country : String) (resp : ProviderResponse) :
    UploadResult × Store × List ProviderCall :=
  match st.kyc_sessions.find? (fun s => s.kyc_session_id == kyc_session_id) with
  | none => ({ success := false, error := "KYC session not found" }, st, [])
  | some _ =>
    match normalizeImage image with
    | .error e => ({ success := false, error := e }, st, [])
    | .ok image_bytes =>
      let r := sumsubScanDocumentBack resp
      let calls := [ProviderCall.uploadDocBack kyc_session_id image_bytes doc_type country]
      let sessions' :=
        updateFirst (fun s => s.kyc_session_id == kyc_session_id)
          (fun s =>
            { s with
              document_back_added := true
              document_type := some doc_type
              country := some country
              steps_completed := s.steps_completed ++ ["document_back"] })
          st.kyc_sessions
      if r.success then (r, { st with kyc_sessions := sessions' }, calls)
      else (r, st, calls)

/-- `verify_kyc_selfie` (service): base64-only input, appending `"selfie"`
and recording the match verdict on success. -/
def serviceVerifyKycSelfie (st : Store) (kyc_session_id : String) (image_base64 : List Char)
    (resp : ProviderResponse) : UploadResult × Store × List ProviderCall :=
  match st.kyc_sessions.find? (fun s => s.kyc_session_id == kyc_session_id) with
  | none => ({ success := false, error := "KYC session not found" }, st, [])
  | some _ =>
    match b64decode (repad image_base64) with
    | none => ({ success := false, error := "Invalid base64 image: decode failure" }, st, [])
    | some image_bytes =>
      let r := sumsubVerifyKycSelfie resp
      let calls := [ProviderCall.uploadSelfie kyc_session_id image_bytes]
      let sessions' :=
        updateFirst (fun s => s.kyc_session_id == kyc_session_id)
          (fun s =>
            { s with
              selfie_added := true
              matches_document := r.matches_document
              face_match_score := r.face_match_score
              steps_completed := s.steps_completed ++ ["selfie"] })
          st.kyc_sessions
      if r.success then (r, { st with kyc_sessions := sessions' }, calls)
      else (r, st, calls)

/-- `check_kyc_verification_status`: session lookup, then status check. -/
def checkKycVerificationStatus (st : Store) (kyc_session_id : String)
    (resp : ProviderResponse) : KycStatusResult :=
  match st.kyc_sessions.find? (fun s => s.kyc_session_id == kyc_session_id) with
  | none => { success := false, error := "KYC session not found" }
  | some _ => checkKycStatus resp

/-- `complete_kyc_verification` (service): on any provider success the
session is marked completed and verified, `"kyc_complete"` appended, and the
user cache's `verified` flag set — all without reading the verdict. -/
def completeKycVerification (st : Store) (kyc_session_id user_id : String)
    (resp : ProviderResponse) : CompleteKycResult × Store :=
  match st.kyc_sessions.find? (fun s => s.kyc_session_id == kyc_session_id) with
  | none => ({ success := false, error := "KYC session not found" }, st)
  | some _ =>
    let r := sumsubCompleteKyc kyc_session_id resp
    let sessions' :=
      updateFirst (fun s => s.kyc_session_id == kyc_session_id)
        (fun s =>
            { s with
              status := "completed"
              verified := true
              steps_completed := s.steps_completed ++ ["kyc_complete"] })
        st.kyc_sessions
    let users' :=
      upsertUser user_id
        (fun u =>
            { u with
              kyc_completed := true
              verified := true
              kyc_session_id := some kyc_session_id }) st.users
    if r.success then (r, { st with kyc_sessions := sessions', users := users' })
    else (r, st)

/-! ## Webhook processing -/

/-- Result of a webhook handler. -/
structure WebhookResult where
  success : Bool
  message : String := ""
  error : String := ""
deriving DecidableEq

/-- The `status_map` of the webhook handlers:
`{"approved": "completed", "rejected": "failed", "pending": "pending"}` with
default `"pending"`. -/
def webhookStatusMap (review_status : String) : String :=
  if review_status = "approved" then "completed"
  else if review_status = "rejected" then "failed"
  else "pending"

/-- `update_liveness_webhook_result`: resolve by `external_user_id`, then
overwrite status/verdict from the review status and refresh the user cache. -/
def updateLivenessWebhookResult (st : Store) (external_user_id review_status : String)
    (webhook_data : Option WebhookPayload) : WebhookResult × Store :=
  match st.liveness_sessions.find? (fun s => s.external_user_id == external_user_id) with
  | none => ({ success := false, error := "Session not found" }, st)
  | some s =>
    let session_status := webhookStatusMap review_status
    let is_live := review_status == "approved"
    let sessions' :=
      updateFirst (fun x => x.external_user_id == external_user_id)
        (fun x =>
            { x with
              status := session_status
              is_live := some is_live
              review_status := some review_status
              webhook_data := webhook_data })
        st.liveness_sessions
    let users' :=
      if s.user_id ≠ "" then
        upsertUser s.user_id
          (fun u =>
            { u with
              liveness_completed := session_status == "completed"
              liveness_verified := is_live
              liveness_review_status := some review_status }) st.users
      else st.users
    ({ success := true, message := "Liveness verification " ++ review_status },
     { st with liveness_sessions := sessions', users := users' })

/-- `update_kyc_webhook_result`: resolve by `external_user_id`, then overwrite
status/verdict from the review status and refresh the user cache. -/
def updateKycWebhookResult (st : Store) (external_user_id review_status : String)
    (webhook_data : Option WebhookPayload) : WebhookResult × Store :=
  match st.kyc_sessions.find? (fun s => s.external_user_id == external_user_id) with
  | none => ({ success := false, error := "KYC session not found" }, st)
  | some s =>
    let session_status := webhookStatusMap review_status
    let is_verified := review_status == "approved"
    let sessions' :=
      updateFirst (fun x => x.external_user_id == external_user_id)
        (fun x =>
            { x with
              status := session_status
              verified := is_verified
              review_status := some review_status
              webhook_data := webhook_data })
        st.kyc_sessions
    let users' :=
      if s.user_id ≠ "" then
        upsertUser s.user_id
          (fun u =>
            { u with
              kyc_completed := session_status == "completed"
              verified := is_verified
              kyc_review_status := some review_status }) st.users
      else st.users
    ({ success := true, message := "KYC verification " ++ review_status },
     { st with kyc_sessions := sessions', users := users' })

/-- The webhook endpoint's dispatch: the liveness handler whenever the
lower-cased reference contains the substring `"liveness"`, else the KYC
handler. -/
inductive Route where
  | liveness
  | kyc
deriving DecidableEq

/-- `"liveness" in external_user_id.lower()` of `sumsub_webhook`. -/
def routeWebhook (external_user_id : String) : Route :=
  if strContains (strLower external_user_id) "liveness" then .liveness else .kyc

/-- `verify_webhook_signature`: read `X-Payload-Digest` and its algorithm
header (already lower-case-keyed by the framework), reject a missing
signature, an empty configured secret, or an unrecognised algorithm, and
otherwise compare the hex HMAC of the raw body. The SHA-512 and SHA-1 HMACs
are library calls outside this repository and enter as parameters. -/
def verifyWebhookSignature (hm512 hm1 : Bytes → Bytes → String) (webhook_secret : String)
    (body : Bytes) (hdrs : Headers) : Bool :=
  let signature := headerGet hdrs "x-payload-digest" ""
  let alg := (headerGet hdrs "x-payload-digest-alg" "HMAC_SHA256_HEX").toUpper
  if signature = "" then false
  else
    let secret_key := webhook_secret.trim
    if secret_key = "" then false
    else
      let expected? : Option String :=
        if alg = "HMAC_SHA256_HEX" then
          some (hexDigest (hmacSha256 (strBytes secret_key) body))
        else if alg = "HMAC_SHA512_HEX" then some (hm512 (strBytes secret_key) body)
        else if alg = "HMAC_SHA1_HEX" then some (hm1 (strBytes secret_key) body)
        else none
      match expected? with
      | none => false
      | some expected => expected == signature

/-- The HTTP outcome of the webhook endpoint: a 200 JSON body with a status
tag, or a raised `HTTPException`. -/
inductive WebhookHttp where
  | ok (status message : String)
  | httpError (code : Nat) (detail : String)
deriving DecidableEq

/-- `sumsub_webhook`: verify the signature over the raw body (401 on
failure, before any parsing or service construction), parse the payload
(400 on bad JSON; parsing is a library call and enters as a parameter), then
dispatch on the reference. -/
def sumsubWebhook (hm512 hm1 : Bytes → Bytes → String) (webhook_secret : String)
    (parse : Bytes → Option WebhookPayload) (st : Store) (body : Bytes) (hdrs : Headers) :
    WebhookHttp × Store :=
  if verifyWebhookSignature hm512 hm1 webhook_secret body hdrs then
    match parse body with
    | none => (.httpError 400 "Invalid JSON payload", st)
    | some p =>
      let (r, st') :=
        match routeWebhook p.externalUserId with
        | .liveness => updateLivenessWebhookResult st p.externalUserId p.reviewStatus (some p)
        | .kyc => updateKycWebhookResult st p.externalUserId p.reviewStatus (some p)
      if r.success then (.ok "success" "Webhook processed", st')
      else (.ok "error" r.error, st')
  else (.httpError 401 "Invalid webhook signature", st)

/-! ## Helper lemmas: hex output shape and signed-data structure -/

theorem hexChar_lower {n : Nat} (h : n < 16) :
    (hexChar n).isDigit = true ∨ ('a' ≤ hexChar n ∧ hexChar n ≤ 'f') := by
  revert n h
  decide

theorem hexByte_lower (b : Nat) :
    ∀ c ∈ hexByte b, c.isDigit = true ∨ ('a' ≤ c ∧ c ≤ 'f') := by
  intro c hc
  have h1 : b / 16 % 16 < 16 := Nat.mod_lt _ (by norm_num)
  have h2 : b % 16 < 16 := Nat.mod_lt _ (by norm_num)
  simp only [hexByte, List.mem_cons, List.not_mem_nil, or_false] at hc
  rcases hc with rfl | rfl
  · exact hexChar_lower h1
  · exact hexChar_lower h2

theorem hexDigest_lower (bs : Bytes) :
    ∀ c ∈ (hexDigest bs).data, c.isDigit = true ∨ ('a' ≤ c ∧ c ≤ 'f') := by
  intro c hc
  simp only [hexDigest, List.mem_flatten, List.mem_map] at hc
  obtain ⟨l, ⟨b, _, rfl⟩, hcl⟩ := hc
  exact hexByte_lower b c hcl

/-- Reading each produced header back out of `_sign_request`'s header set. -/
theorem signRequest_lookup (svc : SumsubService) (m p : String) (b : Bytes)
    (mult : Bool) (t : Nat) :
    headerGet (signRequest svc m p b mult t) "X-App-Access-Sig" "" =
        hexDigest (hmacSha256 (strBytes svc.secret_key) (dataToSign t m p b)) ∧
    headerGet (signRequest svc m p b mult t) "X-App-Token" "" = svc.app_token ∧
    headerGet (signRequest svc m p b mult t) "X-App-Access-Ts" "" = toString t ∧
    headerGet (signRequest svc m p b mult t) "Accept" "" = "application/json" ∧
    (((signRequest svc m p b mult t).lookup "Content-Type").isSome ↔ mult = false) := by
  cases mult <;> simp [signRequest, headerGet, List.lookup]

theorem dataToSign_inj {t : Nat} {m p : String} {b1 b2 : Bytes}
    (h : dataToSign t m p b1 = dataToSign t m p b2) : b1 = b2 := by
  unfold dataToSign at h
  exact List.append_cancel_left h

/-! ## Helper lemmas: digest shape and the pigeonhole collision -/

theorem word4_lt (w : Nat) : ∀ x ∈ word4 w, x < 256 := by
  intro x hx
  simp only [word4, List.mem_cons, List.not_mem_nil, or_false] at hx
  rcases hx with rfl | rfl | rfl | rfl <;> exact Nat.mod_lt _ (by norm_num)

theorem sha256_lt (ms : Bytes) : ∀ x ∈ sha256 ms, x < 256 := by
  intro x hx
  simp only [sha256, hash8Bytes, List.mem_append] at hx
  rcases hx with ((((((h | h) | h) | h) | h) | h) | h) | h <;> exact word4_lt _ _ h

theorem sha256_length (ms : Bytes) : (sha256 ms).length = 32 := by
  simp [sha256, hash8Bytes, word4]

theorem hmacSha256_lt (key msg : Bytes) : ∀ x ∈ hmacSha256 key msg, x < 256 := by
  unfold hmacSha256
  exact sha256_lt _

theorem hmacSha256_length (key msg : Bytes) : (hmacSha256 key msg).length = 32 := by
  unfold hmacSha256
  exact sha256_length _

/-- Big-endian value of a digit list, base 256. -/
def beVal : Bytes → Nat
  | [] => 0
  | d :: rest => d * 256 ^ rest.length + beVal rest

theorem beVal_lt : ∀ {l : Bytes}, (∀ x ∈ l, x < 256) → beVal l < 256 ^ l.length := by
  intro l
  induction l with
  | nil => intro _; simp [beVal]
  | cons d rest ih =>
    intro h
    have hd : d + 1 ≤ 256 := h d (by simp)
    have hr : beVal rest < 256 ^ rest.length := ih (fun x hx => h x (by simp [hx]))
    calc d * 256 ^ rest.length + beVal rest
        < d * 256 ^ rest.length + 256 ^ rest.length := Nat.add_lt_add_left hr _
      _ = (d + 1) * 256 ^ rest.length := by ring
      _ ≤ 256 * 256 ^ rest.length := Nat.mul_le_mul_right _ hd
      _ = 256 ^ (d :: rest).length := by rw [List.length_cons]; ring

theorem digit_split {d1 d2 v1 v2 N : Nat} (h1 : v1 < N) (h2 : v2 < N)
    (he : d1 * N + v1 = d2 * N + v2) : d1 = d2 ∧ v1 = v2 := by
  have key : ∀ a b x y : Nat, x < N → a < b → a * N + x < b * N + y := by
    intro a b x y hx hab
    calc a * N + x < a * N + N := Nat.add_lt_add_left hx _
      _ = (a + 1) * N := by ring
      _ ≤ b * N := Nat.mul_le_mul_right _ hab
      _ ≤ b * N + y := Nat.le_add_right _ _
  have hd : d1 = d2 := by
    rcases Nat.lt_trichotomy d1 d2 with h | h | h
    · exact absurd he (Nat.ne_of_lt (key _ _ _ _ h1 h))
    · exact h
    · exact absurd he.symm (Nat.ne_of_lt (key _ _ _ _ h2 h))
  subst hd
  exact ⟨rfl, by omega⟩

theorem beVal_inj : ∀ {l1 l2 : Bytes}, l1.length = l2.length →
    (∀ x ∈ l1, x < 256) → (∀ x ∈ l2, x < 256) → beVal l1 = beVal l2 → l1 = l2 := by
  intro l1
  induction l1 with
  | nil =>
    intro l2 hlen _ _ _
    cases l2 with
    | nil => rfl
    | cons _ _ => simp at hlen
  | cons d1 r1 ih =>
    intro l2 hlen hb1 hb2 hv
    cases l2 with
    | nil => simp at hlen
    | cons d2 r2 =>
      have hr : r1.length = r2.length := by simpa using hlen
      have hv1 : beVal r1 < 256 ^ r1.length := beVal_lt (fun x hx => hb1 x (by simp [hx]))
      have hv2 : beVal r2 < 256 ^ r1.length := by
        rw [hr]
        exact beVal_lt (fun x hx => hb2 x (by simp [hx]))
      simp only [beVal] at hv
      rw [← hr] at hv
      obtain ⟨hd, hrest⟩ := digit_split hv1 hv2 hv
      rw [hd, ih hr (fun x hx => hb1 x (by simp [hx])) (fun x hx => hb2 x (by simp [hx])) hrest]

/-- The fixed signing instance the C8 collision argument is carried out at. -/
def sigOfBody (b : Bytes) : Bytes :=
  hmacSha256 (strBytes "sek") (dataToSign 1700000000 "POST" "/x" b)

theorem sigOfBody_length (b : Bytes) : (sigOfBody b).length = 32 :=
  hmacSha256_length _ _

theorem sigOfBody_lt (b : Bytes) : ∀ x ∈ sigOfBody b, x < 256 :=
  hmacSha256_lt _ _

theorem sig_collision : ∃ b1 b2 : Bytes, b1 ≠ b2 ∧ sigOfBody b1 = sigOfBody b2 := by
  have hlt : ∀ b, beVal (sigOfBody b) < 256 ^ 32 := by
    intro b
    have h := beVal_lt (l := sigOfBody b) (sigOfBody_lt b)
    rwa [sigOfBody_length] at h
  obtain ⟨n, m, hnm, he⟩ :=
    Finite.exists_ne_map_eq_of_infinite
      (fun n : Nat => (⟨beVal (sigOfBody (List.replicate n 0)), hlt _⟩ : Fin (256 ^ 32)))
  refine ⟨List.replicate n 0, List.replicate m 0, ?_, ?_⟩
  · intro h
    exact hnm (by simpa using congrArg List.length h)
  · have hv := congrArg Fin.val he
    simp only at hv
    exact beVal_inj (by rw [sigOfBody_length, sigOfBody_length])
      (sigOfBody_lt _) (sigOfBody_lt _) hv

/-! ## C1 -/

/-- C1: for every method, path, body and timestamp, `_sign_request` returns as
`X-App-Access-Sig` the lowercase hex HMAC-SHA256, keyed with the configured
secret, of the decimal timestamp, the upper-cased method, the path with query
and exactly the body bytes; the header set carries the app token, the decimal
timestamp, the signature and `Accept: application/json`; and `Content-Type`
is present iff the request is not multipart. -/
theorem sign_request_contract (svc : SumsubService) (m p : String) (b : Bytes)
    (mult : Bool) (t : Nat) :
    headerGet (signRequest svc m p b mult t) "X-App-Access-Sig" "" =
        hexDigest (hmacSha256 (strBytes svc.secret_key)
          (strBytes (toString t) ++ strBytes m.toUpper ++ strBytes p ++ b)) ∧
    (∀ c ∈ (headerGet (signRequest svc m p b mult t) "X-App-Access-Sig" "").data,
        c.isDigit = true ∨ ('a' ≤ c ∧ c ≤ 'f')) ∧
    headerGet (signRequest svc m p b mult t) "X-App-Token" "" = svc.app_token ∧
    headerGet (signRequest svc m p b mult t) "X-App-Access-Ts" "" = toString t ∧
    headerGet (signRequest svc m p b mult t) "Accept" "" = "application/json" ∧
    (((signRequest svc m p b mult t).lookup "Content-Type").isSome ↔ mult = false) := by
  obtain ⟨hsig, htok, hts, hacc, hct⟩ := signRequest_lookup svc m p b mult t
  refine ⟨hsig, ?_, htok, hts, hacc, hct⟩
  rw [hsig]
  exact hexDigest_lower _

/-- Witness for C1 at a concrete instance. -/
theorem sign_request_contract_witness :
    headerGet (signRequest ⟨"sek", "tok", "lvl"⟩ "post" "/x" [1, 2] false 5) "X-App-Token" "" =
        "tok" ∧
    (((signRequest ⟨"sek", "tok", "lvl"⟩ "post" "/x" [1, 2] false 5).lookup
        "Content-Type").isSome ↔ false = false) :=
  ⟨(sign_request_contract ⟨"sek", "tok", "lvl"⟩ "post" "/x" [1, 2] false 5).2.2.1,
   (sign_request_contract ⟨"sek", "tok", "lvl"⟩ "post" "/x" [1, 2] false 5).2.2.2.2.2⟩

/-! ## C8 -/

/-- C8 (amended): the signature is a deterministic function of the secret,
timestamp, method, path and body alone — in particular it is unchanged across
runs and does not depend on the app token, the level or the multipart flag —
and two different body byte sequences always produce two different signed
byte strings. (Distinctness of the *signatures* themselves cannot hold for
every pair of bodies: HMAC-SHA256 maps infinitely many bodies onto finitely
many digests, see the collision counterexample.) -/
theorem sign_deterministic_and_byte_exact
    (svc svc' : SumsubService) (m p : String) (b1 b2 : Bytes) (mult mult' : Bool) (t : Nat)
    (hsec : svc.secret_key = svc'.secret_key) :
    (b1 = b2 →
      headerGet (signRequest svc m p b1 mult t) "X-App-Access-Sig" "" =
        headerGet (signRequest svc' m p b2 mult' t) "X-App-Access-Sig" "") ∧
    (b1 ≠ b2 → dataToSign t m p b1 ≠ dataToSign t m p b2) := by
  constructor
  · intro hb
    rw [(signRequest_lookup svc m p b1 mult t).1, (signRequest_lookup svc' m p b2 mult' t).1,
      hsec, hb]
  · intro hb h
    exact hb (dataToSign_inj h)

/-- Witness for C8's amended theorem at a concrete instance. -/
theorem sign_deterministic_and_byte_exact_witness :
    dataToSign 5 "POST" "/x" [0] ≠ dataToSign 5 "POST" "/x" [1] :=
  (sign_deterministic_and_byte_exact ⟨"sek", "tok", "lvl"⟩ ⟨"sek", "tok2", "lvl2"⟩
    "POST" "/x" [0] [1] false true 5 rfl).2 (by decide)

/-- C8 counterexample: the claim "two different body byte sequences yield
different signatures under the same timestamp, method, and path" is false of
the code: HMAC-SHA256 digests form a finite set while bodies do not, so two
distinct bodies share a signature (pigeonhole; no such pair is feasibly
computable, which is exactly why the scheme is cryptographically sound). -/
theorem distinct_bodies_equal_signature :
    ¬ ∀ b1 b2 : Bytes, b1 ≠ b2 →
      headerGet (signRequest ⟨"sek", "tok", "lvl"⟩ "POST" "/x" b1 false 1700000000)
          "X-App-Access-Sig" "" ≠
        headerGet (signRequest ⟨"sek", "tok", "lvl"⟩ "POST" "/x" b2 false 1700000000)
          "X-App-Access-Sig" "" := by
  intro hall
  obtain ⟨b1, b2, hne, heq⟩ := sig_collision
  refine hall b1 b2 hne ?_
  rw [(signRequest_lookup _ "POST" "/x" b1 false 1700000000).1,
    (signRequest_lookup _ "POST" "/x" b2 false 1700000000).1]
  exact congrArg hexDigest heq

/-! ## Helper lemmas: the base64 round trip -/

theorem b64Char_val : ∀ n, n < 64 → b64Val (b64Char n) = some n := by decide

theorem b64Char_ne_pad : ∀ n, n < 64 → b64Char n ≠ '=' := by decide

theorem b64Keep_b64Char : ∀ n, n < 64 → b64Keep (b64Char n) = true := by decide

theorem dropWhile_append_of_ne {l2 : List Char} (h : ∀ c ∈ l2, c ≠ '=') (l1 : List Char) :
    (l1 ++ l2).dropWhile (fun c => c = '=') = l1.dropWhile (fun c => c = '=') ++ l2 := by
  induction l1 with
  | nil =>
    simp only [List.nil_append]
    cases l2 with
    | nil => simp
    | cons c t =>
      rw [List.dropWhile_cons_of_neg (by simpa using h c (by simp))]
      simp
  | cons x xs ih =>
    by_cases hx : x = '='
    · subst hx
      simpa [List.dropWhile_cons] using ih
    · simp [List.dropWhile_cons, hx, ih]

theorem stripPad_nil : stripPad [] = [] := rfl

theorem stripPad_append_chunk {ch : List Char} (h : ∀ c ∈ ch, c ≠ '=') (t : List Char) :
    stripPad (ch ++ t) = ch ++ stripPad t := by
  unfold stripPad
  rw [List.reverse_append, dropWhile_append_of_ne (fun c hc => h c (List.mem_reverse.mp hc)),
    List.reverse_append, List.reverse_reverse]

theorem stripPad_no_pad {ch : List Char} (h : ∀ c ∈ ch, c ≠ '=') : stripPad ch = ch := by
  have h2 := stripPad_append_chunk h []
  rw [List.append_nil, stripPad_nil, List.append_nil] at h2
  exact h2

theorem stripPad_append_pads (l : List Char) (p : Nat) :
    stripPad (l ++ List.replicate p '=') = stripPad l := by
  unfold stripPad
  congr 1
  rw [List.reverse_append, List.reverse_replicate]
  induction p with
  | zero => simp
  | succ n ih =>
    rw [List.replicate_succ, List.cons_append, List.dropWhile_cons]
    simp [ih]

theorem repad_cons4 (c1 c2 c3 c4 : Char) (s : List Char) :
    repad (c1 :: c2 :: c3 :: c4 :: s) = c1 :: c2 :: c3 :: c4 :: repad s := by
  unfold repad
  simp only [List.length_cons]
  have hm : (s.length + 1 + 1 + 1 + 1) % 4 = s.length % 4 := by omega
  rw [hm]
  by_cases h : s.length % 4 = 0 <;> simp [h]

theorem repad_strip_encode : ∀ {B : Bytes}, (∀ x ∈ B, x < 256) →
    repad (stripPad (b64encode B)) = b64encode B := by
  intro B
  induction B using b64encode.induct with
  | case1 => intro _; rfl
  | case2 a =>
    intro hB
    have ha : a < 256 := hB a (by simp)
    show repad (stripPad ([b64Char (a / 4), b64Char (a % 4 * 16)] ++ List.replicate 2 '=')) = _
    rw [stripPad_append_pads, stripPad_no_pad ?hne]
    case hne =>
      intro c hc
      simp only [List.mem_cons, List.not_mem_nil, or_false] at hc
      rcases hc with rfl | rfl
      · exact b64Char_ne_pad _ (by omega)
      · exact b64Char_ne_pad _ (by omega)
    rfl
  | case3 a b =>
    intro hB
    have ha : a < 256 := hB a (by simp)
    have hb : b < 256 := hB b (by simp)
    show repad (stripPad ([b64Char (a / 4), b64Char (a % 4 * 16 + b / 16),
        b64Char (b % 16 * 4)] ++ List.replicate 1 '=')) = _
    rw [stripPad_append_pads, stripPad_no_pad ?hne]
    case hne =>
      intro c hc
      simp only [List.mem_cons, List.not_mem_nil, or_false] at hc
      rcases hc with rfl | rfl | rfl
      · exact b64Char_ne_pad _ (by omega)
      · exact b64Char_ne_pad _ (by omega)
      · exact b64Char_ne_pad _ (by omega)
    rfl
  | case4 a b c rest ih =>
    intro hB
    have ha : a < 256 := hB a (by simp)
    have hb : b < 256 := hB b (by simp)
    have hc : c < 256 := hB c (by simp)
    have hrest : ∀ x ∈ rest, x < 256 := fun x hx => hB x (by simp [hx])
    show repad (stripPad ([b64Char (a / 4), b64Char (a % 4 * 16 + b / 16),
        b64Char (b % 16 * 4 + c / 64), b64Char (c % 64)] ++ b64encode rest)) = _
    rw [stripPad_append_chunk ?hne]
    case hne =>
      intro x hx
      simp only [List.mem_cons, List.not_mem_nil, or_false] at hx
      rcases hx with rfl | rfl | rfl | rfl
      · exact b64Char_ne_pad _ (by omega)
      · exact b64Char_ne_pad _ (by omega)
      · exact b64Char_ne_pad _ (by omega)
      · exact b64Char_ne_pad _ (by omega)
    show repad (b64Char (a / 4) :: b64Char (a % 4 * 16 + b / 16) ::
        b64Char (b % 16 * 4 + c / 64) :: b64Char (c % 64) :: stripPad (b64encode rest)) = _
    rw [repad_cons4, ih hrest]
    rfl

theorem b64Keep_pad : b64Keep '=' = true := by decide

theorem encode_filter_keep : ∀ {B : Bytes}, (∀ x ∈ B, x < 256) →
    (b64encode B).filter b64Keep = b64encode B := by
  intro B
  induction B using b64encode.induct with
  | case1 => intro _; rfl
  | case2 a =>
    intro hB
    have ha : a < 256 := hB a (by simp)
    show List.filter b64Keep [b64Char (a / 4), b64Char (a % 4 * 16), '=', '='] = _
    simp [List.filter_cons, b64Keep_b64Char (a / 4) (by omega),
      b64Keep_b64Char (a % 4 * 16) (by omega), b64Keep_pad]
    rfl
  | case3 a b =>
    intro hB
    have ha : a < 256 := hB a (by simp)
    have hb : b < 256 := hB b (by simp)
    show List.filter b64Keep
        [b64Char (a / 4), b64Char (a % 4 * 16 + b / 16), b64Char (b % 16 * 4), '='] = _
    simp [List.filter_cons, b64Keep_b64Char (a / 4) (by omega),
      b64Keep_b64Char (a % 4 * 16 + b / 16) (by omega),
      b64Keep_b64Char (b % 16 * 4) (by omega), b64Keep_pad]
    rfl
  | case4 a b c rest ih =>
    intro hB
    have ha : a < 256 := hB a (by simp)
    have hb : b < 256 := hB b (by simp)
    have hc : c < 256 := hB c (by simp)
    have hrest : ∀ x ∈ rest, x < 256 := fun x hx => hB x (by simp [hx])
    show List.filter b64Keep (b64Char (a / 4) :: b64Char (a % 4 * 16 + b / 16) ::
        b64Char (b % 16 * 4 + c / 64) :: b64Char (c % 64) :: b64encode rest) =
      b64Char (a / 4) :: b64Char (a % 4 * 16 + b / 16) ::
        b64Char (b % 16 * 4 + c / 64) :: b64Char (c % 64) :: b64encode rest
    simp [List.filter_cons, b64Keep_b64Char (a / 4) (by omega),
      b64Keep_b64Char (a % 4 * 16 + b / 16) (by omega),
      b64Keep_b64Char (b % 16 * 4 + c / 64) (by omega),
      b64Keep_b64Char (c % 64) (by omega), ih hrest]

theorem b64Quads_encode : ∀ {B : Bytes}, (∀ x ∈ B, x < 256) →
    b64Quads (b64encode B) = some B := by
  intro B
  induction B using b64encode.induct with
  | case1 => intro _; rfl
  | case2 a =>
    intro hB
    have ha : a < 256 := hB a (by simp)
    have h1 : b64Val (b64Char (a / 4)) = some (a / 4) := b64Char_val _ (by omega)
    have h2 : b64Val (b64Char (a % 4 * 16)) = some (a % 4 * 16) := b64Char_val _ (by omega)
    show b64Quads [b64Char (a / 4), b64Char (a % 4 * 16), '=', '='] = some [a]
    simp only [b64Quads, h1, h2]
    simp
    omega
  | case3 a b =>
    intro hB
    have ha : a < 256 := hB a (by simp)
    have hb : b < 256 := hB b (by simp)
    have h1 : b64Val (b64Char (a / 4)) = some (a / 4) := b64Char_val _ (by omega)
    have h2 : b64Val (b64Char (a % 4 * 16 + b / 16)) = some (a % 4 * 16 + b / 16) :=
      b64Char_val _ (by omega)
    have h3 : b64Val (b64Char (b % 16 * 4)) = some (b % 16 * 4) := b64Char_val _ (by omega)
    have hne3 : b64Char (b % 16 * 4) ≠ '=' := b64Char_ne_pad _ (by omega)
    show b64Quads [b64Char (a / 4), b64Char (a % 4 * 16 + b / 16),
        b64Char (b % 16 * 4), '='] = some [a, b]
    simp only [b64Quads, h1, h2, h3, if_neg hne3]
    simp
    omega
  | case4 a b c rest ih =>
    intro hB
    have ha : a < 256 := hB a (by simp)
    have hb : b < 256 := hB b (by simp)
    have hc : c < 256 := hB c (by simp)
    have hrest : ∀ x ∈ rest, x < 256 := fun x hx => hB x (by simp [hx])
    have h1 : b64Val (b64Char (a / 4)) = some (a / 4) := b64Char_val _ (by omega)
    have h2 : b64Val (b64Char (a % 4 * 16 + b / 16)) = some (a % 4 * 16 + b / 16) :=
      b64Char_val _ (by omega)
    have h3 : b64Val (b64Char (b % 16 * 4 + c / 64)) = some (b % 16 * 4 + c / 64) :=
      b64Char_val _ (by omega)
    have h4 : b64Val (b64Char (c % 64)) = some (c % 64) := b64Char_val _ (by omega)
    have hne4 : b64Char (c % 64) ≠ '=' := b64Char_ne_pad _ (by omega)
    show b64Quads (b64Char (a / 4) :: b64Char (a % 4 * 16 + b / 16) ::
        b64Char (b % 16 * 4 + c / 64) :: b64Char (c % 64) :: b64encode rest) =
      some (a :: b :: c :: rest)
    simp only [b64Quads, h1, h2, h3, h4, if_neg hne4, ih hrest]
    simp
    omega

theorem b64decode_encode {B : Bytes} (hB : ∀ x ∈ B, x < 256) :
    b64decode (b64encode B) = some B := by
  rw [b64decode, encode_filter_keep hB, b64Quads_encode hB]

/-- C6: stripping the trailing pad of a standard base64 encoding, re-padding
with the ingestion routine's rule (append `'='` until the length is a
multiple of four) and decoding returns exactly the original byte buffer. -/
theorem base64_strip_repad_roundtrip {B : Bytes} (hB : ∀ x ∈ B, x < 256) :
    b64decode (repad (stripPad (b64encode B))) = some B := by
  rw [repad_strip_encode hB, b64decode_encode hB]

/-- Witness for C6 at a concrete buffer whose encoding has padding. -/
theorem base64_strip_repad_roundtrip_witness :
    b64decode (repad (stripPad (b64encode [72, 101, 121]))) = some [72, 101, 121] :=
  base64_strip_repad_roundtrip (by decide)

/-! ## Concrete fixtures and the remaining claims -/

def completedKycSession : KycSession :=
  { kyc_session_id := "abc123", user_id := "u1", external_user_id := "kyc_u1_1700000000",
    status := "completed", steps_completed := ["document_front", "selfie", "kyc_complete"],
    verified := true, review_status := some "approved" }

def storeCompleted : Store := { kyc_sessions := [completedKycSession] }

/-- C2 counterexample: a KYC session already in the terminal phase
`completed` regresses to the non-terminal `pending` when a later webhook
carries `reviewStatus = "pending"`, and a later `scan_document_front` step
call on the completed session is still honoured (it succeeds and appends
`document_front` again). -/
theorem kyc_terminal_not_sticky :
    ((updateKycWebhookResult storeCompleted "kyc_u1_1700000000" "pending" none).2.kyc_sessions.map
        (fun s => s.status) = ["pending"]) ∧
    (scanDocumentFront storeCompleted "abc123" (ImagePayload.bytes [1]) "PASSPORT" "USA"
        { status_code := 200 }).1.success = true ∧
    ((scanDocumentFront storeCompleted "abc123" (ImagePayload.bytes [1]) "PASSPORT" "USA"
        { status_code := 200 }).2.1.kyc_sessions.map (fun s => s.steps_completed) =
      [["document_front", "selfie", "kyc_complete", "document_front"]]) := by
  decide

/-- C2 (amended): webhook processing overwrites the session status
unconditionally with the image of `reviewStatus` under the status map
(approved→completed, rejected→failed, otherwise pending) and overwrites the
verdict flag, regardless of the current phase - terminal phases are not
sticky; and step calls do not consult the phase: a submission on a session in
any phase, with a decodable image and a 200/201 provider response, is
processed and appends its step tag. -/
theorem webhook_and_steps_unconditional :
    (∀ (st : Store) (euid rs : String) (wd : Option WebhookPayload) (s : KycSession),
      st.kyc_sessions.find? (fun x => x.external_user_id == euid) = some s →
      (updateKycWebhookResult st euid rs wd).1.success = true ∧
      (updateKycWebhookResult st euid rs wd).2.kyc_sessions =
        updateFirst (fun x => x.external_user_id == euid)
          (fun x =>
            { x with
              status := webhookStatusMap rs
              verified := rs == "approved"
              review_status := some rs
              webhook_data := wd }) st.kyc_sessions) ∧
    (∀ (st : Store) (sid dt c : String) (img : ImagePayload) (bs : Bytes)
      (resp : ProviderResponse) (s : KycSession),
      st.kyc_sessions.find? (fun x => x.kyc_session_id == sid) = some s →
      normalizeImage img = .ok bs →
      (resp.status_code = 200 ∨ resp.status_code = 201) →
      (scanDocumentFront st sid img dt c resp).1.success = true ∧
      (scanDocumentFront st sid img dt c resp).2.1.kyc_sessions =
        updateFirst (fun x => x.kyc_session_id == sid)
          (fun x =>
            { x with
              document_front_added := true
              document_type := some dt
              country := some c
              steps_completed := x.steps_completed ++ ["document_front"] })
          st.kyc_sessions) := by
  constructor
  · intro st euid rs wd s h
    simp [updateKycWebhookResult, h]
  · intro st sid dt c img bs resp s h himg hcode
    rw [scanDocumentFront, h, himg]
    simp [sumsubScanDocumentFront, hcode]

/-- Witness for C2's amended theorem at a concrete completed session. -/
theorem webhook_and_steps_unconditional_witness :
    (updateKycWebhookResult storeCompleted "kyc_u1_1700000000" "rejected" none).1.success =
      true ∧
    (scanDocumentFront storeCompleted "abc123" (ImagePayload.bytes [1]) "PASSPORT" "USA"
        { status_code := 201 }).1.success = true :=
  ⟨(webhook_and_steps_unconditional.1 storeCompleted "kyc_u1_1700000000" "rejected" none
      completedKycSession (by decide)).1,
   (webhook_and_steps_unconditional.2 storeCompleted "abc123" "PASSPORT" "USA"
      (ImagePayload.bytes [1]) [1] { status_code := 201 } completedKycSession
      (by decide) rfl (by decide)).1⟩

/-- C3: the webhook verifier returns `false` on a missing signature header,
an empty (post-strip) configured secret, or an algorithm header outside the
fixed set (matched after upper-casing, as the code normalises it); and
whenever verification is false the endpoint answers 401 and performs no
session or user-cache mutation: the store is returned unchanged. -/
theorem webhook_verification_rejects
    (hm512 hm1 : Bytes → Bytes → String) (secret : String) (body : Bytes) (hdrs : Headers)
    (parse : Bytes → Option WebhookPayload) (st : Store) :
    (headerGet hdrs "x-payload-digest" "" = "" →
      verifyWebhookSignature hm512 hm1 secret body hdrs = false) ∧
    (secret.trim = "" →
      verifyWebhookSignature hm512 hm1 secret body hdrs = false) ∧
    ((headerGet hdrs "x-payload-digest-alg" "HMAC_SHA256_HEX").toUpper ∉
        (["HMAC_SHA256_HEX", "HMAC_SHA512_HEX", "HMAC_SHA1_HEX"] : List String) →
      verifyWebhookSignature hm512 hm1 secret body hdrs = false) ∧
    (verifyWebhookSignature hm512 hm1 secret body hdrs = false →
      sumsubWebhook hm512 hm1 secret parse st body hdrs =
        (WebhookHttp.httpError 401 "Invalid webhook signature", st)) := by
  refine ⟨?_, ?_, ?_, ?_⟩
  · intro h
    simp [verifyWebhookSignature, h]
  · intro h
    simp only [verifyWebhookSignature, h]
    split <;> simp
  · intro h
    simp only [List.mem_cons, List.not_mem_nil, or_false, not_or] at h
    obtain ⟨h1, h2, h3⟩ := h
    simp only [verifyWebhookSignature, h1, h2, h3, if_false]
    split <;> simp [h1, h2, h3]
  · intro h
    simp [sumsubWebhook, h]

/-- Witness for C3 at a concrete webhook with no signature header. -/
theorem webhook_verification_rejects_witness :
    verifyWebhookSignature (fun _ _ => "") (fun _ _ => "") "sek" [1, 2] [] = false ∧
    sumsubWebhook (fun _ _ => "") (fun _ _ => "") "sek" (fun _ => none) storeCompleted
        [1, 2] [] =
      (WebhookHttp.httpError 401 "Invalid webhook signature", storeCompleted) := by
  have h := webhook_verification_rejects (fun _ _ => "") (fun _ _ => "") "sek" [1, 2] []
    (fun _ => none) storeCompleted
  have hfalse := h.1 (by decide)
  exact ⟨hfalse, h.2.2.2 hfalse⟩

/-- C4 counterexample: for the KYC flavour of session start, a non-201
response yields an error equal to the raw body text alone - it does not carry
the response status code (here `400` appears nowhere in the error), contrary
to the claim that the error carries the raw status and body. -/
theorem kyc_create_error_lacks_status :
    (startKycVerification {} "u1" 1700000000
        { status_code := 400, text := "Invalid level" }).1.success = false ∧
    (startKycVerification {} "u1" 1700000000
        { status_code := 400, text := "Invalid level" }).1.error = "Invalid level" ∧
    strContains (startKycVerification {} "u1" 1700000000
        { status_code := 400, text := "Invalid level" }).1.error (toString 400) = false := by
  decide

/-- C4 (amended): session start succeeds iff the provider returns 201 with an
`id` in the body; on success the returned identifier and the persisted
session key are exactly the provider's applicant id, with status
`"initiated"`; on failure nothing is persisted; a non-201 liveness start
carries the raw status and body in its error, while the KYC flavour carries
only the raw body text. -/
theorem start_session_contract (st : Store) (uid : String) (t : Nat) (resp : ProviderResponse) :
    ((startLivenessDetection st uid t resp).1.success = true ↔
      resp.status_code = 201 ∧ (resp.json.lookup "id").isSome) ∧
    (∀ aid, resp.status_code = 201 → resp.json.lookup "id" = some aid →
      (startLivenessDetection st uid t resp).1.session_id = aid ∧
      (startLivenessDetection st uid t resp).2.liveness_sessions =
        st.liveness_sessions ++
          [{ session_id := aid, user_id := uid,
             external_user_id := externalLivenessId uid t, status := "initiated" }]) ∧
    ((startLivenessDetection st uid t resp).1.success = false →
      (startLivenessDetection st uid t resp).2 = st) ∧
    (resp.status_code ≠ 201 →
      (startLivenessDetection st uid t resp).1.error =
        "Sumsub API Error: Status " ++ toString resp.status_code ++ " - " ++ resp.text) ∧
    ((startKycVerification st uid t resp).1.success = true ↔
      resp.status_code = 201 ∧ (resp.json.lookup "id").isSome) ∧
    (∀ aid, resp.status_code = 201 → resp.json.lookup "id" = some aid →
      (startKycVerification st uid t resp).1.session_id = aid ∧
      (startKycVerification st uid t resp).2.kyc_sessions =
        st.kyc_sessions ++
          [{ kyc_session_id := aid, user_id := uid,
             external_user_id := externalKycId uid t, status := "initiated",
             steps_completed := [] }]) ∧
    ((startKycVerification st uid t resp).1.success = false →
      (startKycVerification st uid t resp).2 = st) ∧
    (resp.status_code ≠ 201 →
      (startKycVerification st uid t resp).1.error = resp.text) := by
  by_cases h201 : resp.status_code = 201
  · cases hid : resp.json.lookup "id" with
    | none =>
      refine ⟨?_, ?_, ?_, ?_, ?_, ?_, ?_, ?_⟩ <;>
        simp [startLivenessDetection, startLivenessSession, startKycVerification,
          createKycApplicant, h201, hid]
    | some aid =>
      refine ⟨?_, ?_, ?_, ?_, ?_, ?_, ?_, ?_⟩ <;>
        simp [startLivenessDetection, startLivenessSession, startKycVerification,
          createKycApplicant, h201, hid]
  · refine ⟨?_, ?_, ?_, ?_, ?_, ?_, ?_, ?_⟩ <;>
      simp [startLivenessDetection, startLivenessSession, startKycVerification,
        createKycApplicant, h201]

/-- Witness for C4's amended theorem at the spec's scenario: 201 with
`{id: "abc123"}` for user `"u1"`. -/
theorem start_session_contract_witness :
    (startLivenessDetection {} "u1" 1700000000
        { status_code := 201, json := [("id", "abc123")] }).1.session_id = "abc123" ∧
    (startLivenessDetection {} "u1" 1700000000
        { status_code := 201, json := [("id", "abc123")] }).2.liveness_sessions =
      [{ session_id := "abc123", user_id := "u1",
         external_user_id := externalLivenessId "u1" 1700000000, status := "initiated" }] :=
  ((start_session_contract {} "u1" 1700000000
      { status_code := 201, json := [("id", "abc123")] }).2.1 "abc123" rfl (by decide))

def kycSessionLiveFan : KycSession :=
  { kyc_session_id := "zzz9", user_id := "liveness_fan",
    external_user_id := externalKycId "liveness_fan" 1700000000, status := "initiated" }

def storeLiveFan : Store := { kyc_sessions := [kycSessionLiveFan] }

/-- C5: the endpoint routes on a substring test
(`"liveness" in external_user_id.lower()`), not on the reference's kind
prefix. A KYC reference generated for the user id `"liveness_fan"` is
therefore dispatched to the liveness handler, which cannot find the KYC
session and drops the webhook, while plain user ids route as the claim says. -/
theorem kyc_reference_misrouted :
    routeWebhook (externalKycId "liveness_fan" 1700000000) = Route.liveness ∧
    routeWebhook (externalKycId "liveness_fan" 1700000000) ≠ Route.kyc ∧
    routeWebhook (externalKycId "u1" 1700000000) = Route.kyc ∧
    routeWebhook (externalLivenessId "u1" 1700000000) = Route.liveness ∧
    updateLivenessWebhookResult storeLiveFan (externalKycId "liveness_fan" 1700000000)
        "approved" none =
      ({ success := false, error := "Session not found" }, storeLiveFan) := by
  decide

/-- C7: when the session exists but the payload is not decodable - a base64
string that fails decoding after re-padding, or a payload that is neither a
string nor a byte sequence - the step handlers return the client input error,
distinct from the `Sumsub API Error` family, perform no provider call, and
leave the store untouched; likewise for the liveness selfie step. -/
theorem bad_image_input_error :
    (∀ (st : Store) (sid dt c e : String) (img : ImagePayload) (resp : ProviderResponse)
      (s : KycSession),
      st.kyc_sessions.find? (fun x => x.kyc_session_id == sid) = some s →
      normalizeImage img = .error e →
      scanDocumentFront st sid img dt c resp = ({ success := false, error := e }, st, []) ∧
      (e = "Invalid image payload" ∨ e = "Invalid image data: decode failure") ∧
      strLead e "Sumsub API Error" = false) ∧
    (∀ (st : Store) (sid : String) (chars : List Char) (resp : ProviderResponse)
      (s : LivenessSession),
      st.liveness_sessions.find? (fun x => x.session_id == sid) = some s →
      b64decode (repad chars) = none →
      processLivenessSelfie st sid chars resp =
        ({ success := false, error := "Invalid base64 image: decode failure" }, st, [])) := by
  constructor
  · intro st sid dt c e img resp s hfind herr
    have hcase : e = "Invalid image payload" ∨ e = "Invalid image data: decode failure" := by
      cases img with
      | str s0 =>
        simp only [normalizeImage] at herr
        cases hdec : b64decode (repad s0) with
        | none =>
          rw [hdec] at herr
          right
          exact (Except.error.injEq _ _).mp herr.symm
        | some bs =>
          rw [hdec] at herr
          exact absurd herr (by simp)
      | bytes b0 => exact absurd herr (by simp [normalizeImage])
      | other =>
        left
        simpa [normalizeImage] using herr.symm
    refine ⟨?_, hcase, ?_⟩
    · rw [scanDocumentFront, hfind, herr]
    · rcases hcase with rfl | rfl <;> decide
  · intro st sid chars resp s hfind hdec
    rw [processLivenessSelfie, hfind, hdec]

/-- Witness for C7 at a non-decodable string and a non-image payload. -/
theorem bad_image_input_error_witness :
    scanDocumentFront storeCompleted "abc123" (ImagePayload.str ['!']) "PASSPORT" "USA"
        { status_code := 200 } =
      ({ success := false, error := "Invalid image data: decode failure" },
        storeCompleted, []) ∧
    scanDocumentFront storeCompleted "abc123" ImagePayload.other "PASSPORT" "USA"
        { status_code := 200 } =
      ({ success := false, error := "Invalid image payload" }, storeCompleted, []) :=
  ⟨(bad_image_input_error.1 storeCompleted "abc123" "PASSPORT" "USA"
      "Invalid image data: decode failure" (ImagePayload.str ['!']) { status_code := 200 }
      completedKycSession (by decide) (by rfl)).1,
   (bad_image_input_error.1 storeCompleted "abc123" "PASSPORT" "USA"
      "Invalid image payload" ImagePayload.other { status_code := 200 }
      completedKycSession (by decide) (by rfl)).1⟩

def initiatedKycSession : KycSession :=
  { kyc_session_id := "abc123", user_id := "u1",
    external_user_id := externalKycId "u1" 1700000000, status := "initiated" }

def storeInitiated : Store := { kyc_sessions := [initiatedKycSession] }

/-- C9: `check_kyc_status` reads the `verificationStatus` key, which the
documented wire shape `{status, reviewStatus, reviews}` never carries, so on
a documented-shape response with `status = "processing"` the lookup defaults
to `"pending"` and progress is 50, not the claimed 75; with `"approved"` it
is again 50, not 100. -/
theorem check_status_ignores_documented_status_field :
    checkKycVerificationStatus storeInitiated "abc123"
        { status_code := 200, json := [("status", "processing"), ("reviewStatus", "pending")] } =
      { success := true, status := "pending", validating_documents := true,
        verifying_identity := false, running_security_checks := false, progress := 50 } ∧
    (checkKycVerificationStatus storeInitiated "abc123"
        { status_code := 200, json := [("status", "approved"), ("reviewStatus", "completed")] }
      ).progress = 50 ∧
    (checkKycVerificationStatus storeInitiated "abc123"
        { status_code := 200, json := [("verificationStatus", "processing")] }).progress = 75 := by
  decide

/-- C10: on any 200/201 provider response the selfie verdict fields are fixed
constants — `is_live = true`, `confidence = 0.95` for the liveness selfie and
`matches_document = true`, `face_match_score = 0.94` for the KYC selfie —
independent of the response content; and KYC completion on any provider 200
marks the session completed-and-verified and sets the user cache's `verified`
flag, never reading `reviewStatus`. -/
theorem upload_verdicts_hardcoded :
    (∀ resp : ProviderResponse, resp.status_code = 200 ∨ resp.status_code = 201 →
      (addLivenessSelfie resp).success = true ∧
      (addLivenessSelfie resp).is_live = some true ∧
      (addLivenessSelfie resp).confidence = some (95 / 100 : ℚ) ∧
      (sumsubVerifyKycSelfie resp).matches_document = some true ∧
      (sumsubVerifyKycSelfie resp).face_match_score = some (94 / 100 : ℚ)) ∧
    (∀ (st : Store) (sid uid : String) (resp : ProviderResponse) (s : KycSession),
      st.kyc_sessions.find? (fun x => x.kyc_session_id == sid) = some s →
      resp.status_code = 200 →
      (completeKycVerification st sid uid resp).1.success = true ∧
      (completeKycVerification st sid uid resp).2.kyc_sessions =
        updateFirst (fun x => x.kyc_session_id == sid)
          (fun x =>
            { x with
              status := "completed"
              verified := true
              steps_completed := x.steps_completed ++ ["kyc_complete"] }) st.kyc_sessions ∧
      (completeKycVerification st sid uid resp).2.users =
        upsertUser uid
          (fun u =>
            { u with
              kyc_completed := true
              verified := true
              kyc_session_id := some sid }) st.users) := by
  constructor
  · intro resp hcode
    simp [addLivenessSelfie, sumsubVerifyKycSelfie, hcode]
  · intro st sid uid resp s hfind hcode
    rw [completeKycVerification, hfind]
    simp [sumsubCompleteKyc, hcode]

/-- Witness for C10 on a 200 response carrying `reviewStatus = "rejected"`:
the verdicts are still the fixed constants and the user cache is marked
verified. -/
theorem upload_verdicts_hardcoded_witness :
    (addLivenessSelfie { status_code := 200, json := [("reviewStatus", "rejected")] }).is_live =
      some true ∧
    (completeKycVerification storeInitiated "abc123" "u1"
        { status_code := 200, json := [("reviewStatus", "rejected")] }).2.users =
      upsertUser "u1"
        (fun u =>
          { u with
            kyc_completed := true
            verified := true
            kyc_session_id := some "abc123" }) storeInitiated.users :=
  ⟨(upload_verdicts_hardcoded.1 { status_code := 200, json := [("reviewStatus", "rejected")] }
      (Or.inl rfl)).2.1,
   (upload_verdicts_hardcoded.2 storeInitiated "abc123" "u1"
      { status_code := 200, json := [("reviewStatus", "rejected")] } initiatedKycSession
      (by decide) rfl).2.2⟩

end NikooKyc
